import Mathlib

/-!
Shallow embedding of the inline-hook / trampoline core of the
airstrike-3d-playground DLL proxies.

Two near-duplicate variants exist in the repository:
  * `src/src/overlay/bass_proxy.cpp` — `install_hook`, `remove_hooks`,
    `hook_swap`, `wnd_proc` (the more defensive variant: it checks the
    results of `VirtualProtect` and `VirtualAlloc`);
  * `src/src/bass/bass_proxy.cpp` — `install_hook`, `remove_hook`,
    `swap_buffers_hook`, `wnd_proc_hook` (ignores the `VirtualProtect`
    result and does not null-check `VirtualAlloc`).

Memory is modelled as a total function `Nat → Nat` over byte addresses;
win32 calls whose outcome depends on the environment (module resolution,
protection changes, allocation, `WindowFromDC`, …) are oracles packaged in
environment structures.  Each modelled function returns, besides its result
and the successor state, a trace of the externally visible primitive
operations it performed, in program order, so that ordering and
"never invoked" properties can be stated.
-/

/-- Byte-addressed memory: total map from addresses to byte values. -/
abbrev Mem := Nat → Nat

/-- `memcpy(dst = a, src = bs, n = bs.length)`: overwrite `bs.length`
bytes starting at `a`, leave every other address untouched. -/
def writeBytes (m : Mem) (a : Nat) (bs : List Nat) : Mem :=
  fun x => if a ≤ x ∧ x < a + bs.length then bs.getD (x - a) 0 else m x

/-- `memcpy(dst = buffer, src = a, n)`: read `n` consecutive bytes from `a`. -/
def readBytes (m : Mem) (a n : Nat) : List Nat :=
  (List.range n).map fun i => m (a + i)

/-- The low four bytes of a value, little-endian — what
`memcpy(p, &rel_offset, 4)` stores on a little-endian machine. -/
def le32 (v : Nat) : List Nat :=
  [v % 256, v / 256 % 256, v / 65536 % 256, v / 16777216 % 256]

/-- Recompose four little-endian bytes into the raw 32-bit value. -/
def decodeLE32 (b0 b1 b2 b3 : Nat) : Nat :=
  b0 + 256 * b1 + 65536 * b2 + 16777216 * b3

/-- Interpret a raw 32-bit value as a signed 32-bit integer (two's
complement), the way the CPU interprets the displacement field of an
`E9 rel32` near jump. -/
def sint32 (raw : Nat) : Int :=
  if raw < 2147483648 then (raw : Int) else (raw : Int) - 4294967296

/-- The 32-bit truncation of `dst - src`, as stored by
`intptr_t rel = dst - src; memcpy(p, &rel, 4)`. -/
def relOffset (dst src : Nat) : Nat :=
  (((dst : Int) - (src : Int)).emod 4294967296).toNat

/-- The 5-byte patch written over the target prologue:
`target[0] = 0xE9; memcpy(target+1, &rel_offset, 4)` with
`rel_offset = hook - (target + 5)`. -/
def patchBytes (hook target : Nat) : List Nat :=
  0xE9 :: le32 (relOffset hook (target + 5))

/-- The 10 bytes written into the trampoline:
`memcpy(tramp, original_bytes, 5); tramp[5] = 0xE9;`
`back = (target + 5) - (tramp + 10); memcpy(tramp+6, &back, 4)`. -/
def trampBytes (saved : List Nat) (target tramp : Nat) : List Nat :=
  saved ++ 0xE9 :: le32 (relOffset (target + 5) (tramp + 10))

/-- One row of the overlay's hook table (`struct hook_entry`). -/
structure hook_entry where
  module : String
  function : String
  original_addr : Nat
  hook_addr : Nat
  active : Bool
deriving Repr

/-- Externally visible primitive operations, recorded in program order. -/
inductive Ev
  | protect        -- VirtualProtect(target, 5, PAGE_EXECUTE_READWRITE, …)
  | protectRestore -- VirtualProtect(target, 5, old_protect, …)
  | writeTarget    -- byte copy of the 5-byte patch into the target
  | allocTramp     -- VirtualAlloc of the 16-byte trampoline block
  | writeTramp     -- byte copies populating the trampoline
  | setShutdown    -- shutting_down = true
  | restoreWndProc -- SetWindowLongPtrA(game_window, GWLP_WNDPROC, orig_wnd_proc)
  | restoreBytes   -- byte copy of original_bytes back over the target
  | freeTramp      -- VirtualFree of the trampoline
  | imguiShutdown  -- ImGui_* shutdown + DestroyContext
  | wndSubst       -- SetWindowLongPtrA(game_window, GWLP_WNDPROC, wnd_proc)
  | createCtx      -- ImGui::CreateContext
  | imguiInit      -- both ImGui backends initialized successfully
  | initSysInfo    -- init_system_info()
  | registerHook   -- g_hooks.push_back(…)
  | drawOverlay    -- draw_overlay()
  | callTramp      -- real_wgl_swap(dc) — the forward through the trampoline
deriving DecidableEq, Repr

/-- The module-level mutable state shared by installer, remover and
interceptor (`real_wgl_swap`, `game_window`, `orig_wnd_proc`,
`imgui_ready`, `shutting_down`, `original_bytes`, `g_hooks`), plus the
process memory and the interceptor's function-local `static bool init`. -/
structure St where
  mem : Mem
  original_bytes : List Nat
  real_wgl_swap : Option Nat
  game_window : Option Nat
  orig_wnd_proc : Option Nat
  swap_init : Bool          -- `static bool init` inside hook_swap
  imgui_ready : Bool
  shutting_down : Bool
  g_hooks : List hook_entry

/-- Environment of one `install_hook` run (overlay variant): outcomes of
the win32 calls it makes and the addresses the OS hands back. -/
structure InstallEnv where
  opengl_module : Bool      -- GetModuleHandleA("opengl32.dll") non-null
  target_resolved : Bool    -- GetProcAddress(…, "wglSwapBuffers") non-null
  target_addr : Nat         -- the resolved entry address of wglSwapBuffers
  protect_ok : Bool         -- first VirtualProtect succeeds
  protect_restore_ok : Bool -- second VirtualProtect succeeds (failure only logged)
  alloc_ok : Bool           -- VirtualAlloc succeeds
  tramp_addr : Nat          -- base address VirtualAlloc returns
  hook_addr : Nat           -- address of hook_swap (the interceptor)

/-- `install_hook` of `src/src/overlay/bass_proxy.cpp`:
resolve module and symbol (abort on failure), loosen protection (abort on
failure), save the original 5 bytes, write the `E9 rel32` patch, restore
protection (failure only logged), allocate the 16-byte trampoline (abort
on failure, leaving the target patched), populate it, and publish it as
`real_wgl_swap`. -/
def install_hook (e : InstallEnv) (s : St) : Bool × St × List Ev :=
  if e.opengl_module = false then (false, s, []) else
  if e.target_resolved = false then (false, s, []) else
  if e.protect_ok = false then (false, s, [Ev.protect]) else
  let A := e.target_addr
  let saved := readBytes s.mem A 5
  let s1 : St := { s with original_bytes := saved,
                          mem := writeBytes s.mem A (patchBytes e.hook_addr A) }
  if e.alloc_ok = false then
    (false, s1, [Ev.protect, Ev.writeTarget, Ev.protectRestore, Ev.allocTramp])
  else
    let T := e.tramp_addr
    let s2 : St := { s1 with
      mem := writeBytes (writeBytes s1.mem T (List.replicate 16 0)) T
               (trampBytes saved A T),
      real_wgl_swap := some T }
    (true, s2,
     [Ev.protect, Ev.writeTarget, Ev.protectRestore, Ev.allocTramp, Ev.writeTramp])

/-- Environment of one `remove_hooks` run (overlay variant). -/
structure RemoveEnv where
  opengl_module : Bool
  target_resolved : Bool
  target_addr : Nat
  protect_ok : Bool
  free_ok : Bool            -- VirtualFree succeeds (failure only logged)

/-- `remove_hooks` of `src/src/overlay/bass_proxy.cpp`:
set `shutting_down` first; restore the window procedure if one was saved;
re-resolve the target and, when protection can be loosened, copy
`original_bytes` back; free the trampoline if one was published; shut the
GUI down if it was brought up.  The source neither nulls `real_wgl_swap`
nor clears `imgui_ready`. -/
def remove_hooks (e : RemoveEnv) (s : St) : St × List Ev :=
  let s1 : St := { s with shutting_down := true }
  let tr1 := if s1.orig_wnd_proc.isSome && s1.game_window.isSome
             then [Ev.restoreWndProc] else []
  let resolved := e.opengl_module && e.target_resolved
  let s2 : St := if resolved && e.protect_ok
    then { s1 with mem := writeBytes s1.mem e.target_addr s1.original_bytes }
    else s1
  let tr2 := if resolved then
      (if e.protect_ok then [Ev.protect, Ev.restoreBytes, Ev.protectRestore]
       else [Ev.protect])
    else []
  let tr3 := if s2.real_wgl_swap.isSome then [Ev.freeTramp] else []
  let tr4 := if s2.imgui_ready then [Ev.imguiShutdown] else []
  (s2, Ev.setShutdown :: (tr1 ++ (tr2 ++ (tr3 ++ tr4))))

/-- Environment of one `hook_swap` invocation (overlay variant). -/
structure SwapEnv where
  has_context : Bool        -- wglGetCurrentContext() non-null
  window_from_dc : Option Nat -- WindowFromDC(wglGetCurrentDC())
  set_wnd_long : Option Nat -- SetWindowLongPtrA result (previous WNDPROC)
  imgui_win32_ok : Bool     -- ImGui_ImplWin32_Init succeeds
  imgui_gl3_ok : Bool       -- ImGui_ImplOpenGL3_Init succeeds
  register_addr : Option Nat -- GetProcAddress in the hook-table registration
  hook_addr : Nat           -- address of hook_swap pushed into g_hooks
  tramp_ret : Bool          -- value real_wgl_swap(dc) returns

/-- Tail of `hook_swap` after the lazy window hook: the unconditional
forward through the trampoline, preceded by `draw_overlay()` when the GUI
is up. -/
def finishSwap (e : SwapEnv) (s : St) (tr : List Ev) : Bool × St × List Ev :=
  let tr2 := if s.imgui_ready then tr ++ [Ev.drawOverlay] else tr
  (e.tramp_ret, s, tr2 ++ [Ev.callTramp])

/-- Middle of `hook_swap`: the lazy GUI bring-up guarded by
`init && !imgui_ready`.  `ImGui::CreateContext` runs on every attempt;
`imgui_ready` flips only when both backend inits succeed, and only then do
`init_system_info` and the hook-table registration run. -/
def hook_swap_rest (e : SwapEnv) (s : St) (tr : List Ev) : Bool × St × List Ev :=
  if s.swap_init && !s.imgui_ready then
    if e.imgui_win32_ok = false then
      finishSwap e s (tr ++ [Ev.createCtx])
    else if e.imgui_gl3_ok = false then
      finishSwap e s (tr ++ [Ev.createCtx])
    else
      let s2 : St := { s with imgui_ready := true }
      match e.register_addr with
      | some a =>
          let s3 : St := { s2 with g_hooks := s2.g_hooks ++
            [⟨"opengl32.dll", "wglSwapBuffers", a, e.hook_addr, true⟩] }
          finishSwap e s3
            (tr ++ [Ev.createCtx, Ev.imguiInit, Ev.initSysInfo, Ev.registerHook])
      | none =>
          finishSwap e s2 (tr ++ [Ev.createCtx, Ev.imguiInit, Ev.initSysInfo])
  else finishSwap e s tr

/-- `hook_swap` of `src/src/overlay/bass_proxy.cpp`, the interceptor
executing in place of `wglSwapBuffers`.  Note the early return when
`WindowFromDC` fails: it still forwards through the trampoline, and it
leaves `init` false so the window hook is retried on the next call.
`SetWindowLongPtrA`'s result is stored in `orig_wnd_proc` even when null
(failure is only logged), and `init` is set either way. -/
def hook_swap (e : SwapEnv) (s : St) : Bool × St × List Ev :=
  if !s.swap_init && e.has_context then
    match e.window_from_dc with
    | none => (e.tramp_ret, { s with game_window := none }, [Ev.callTramp])
    | some w =>
        hook_swap_rest e
          { s with game_window := some w,
                   orig_wnd_proc := e.set_wnd_long,
                   swap_init := true }
          [Ev.wndSubst]
  else hook_swap_rest e s []

/-- Fold `hook_swap` over a sequence of per-call environments,
concatenating the traces. -/
def run_swaps : List SwapEnv → St → St × List Ev
  | [], s => (s, [])
  | e :: es, s =>
      let r := hook_swap e s
      let rest := run_swaps es r.2.1
      (rest.1, r.2.2 ++ rest.2)

/-- Events of the substituted window procedure, carrying the message
arguments so "unmodified arguments" is expressible. -/
inductive MsgEv
  | gui (h m w l : Nat)      -- ImGui_ImplWin32_WndProcHandler(h, m, w, l)
  | callOrig (h m w l : Nat) -- CallWindowProc(orig_wnd_proc, h, m, w, l)
deriving DecidableEq, Repr

/-- `wnd_proc` of `src/src/overlay/bass_proxy.cpp`: run the ImGui message
handler unless shutting down (its result is discarded), then
unconditionally delegate to the saved original window procedure and
return its result (`orig_result` is the oracle for that return value). -/
def wnd_proc (s : St) (orig_result : Int) (h m w l : Nat) : Int × List MsgEv :=
  let tr := if s.shutting_down then [] else [MsgEv.gui h m w l]
  (orig_result, tr ++ [MsgEv.callOrig h m w l])

/-- Recognizer for the delegation event, used to state that exactly one
delegation with the right arguments happens. -/
def isCallOrig : MsgEv → Bool
  | MsgEv.callOrig _ _ _ _ => true
  | _ => false

namespace Bass

/-- Environment of one `install_hook` run of `src/src/bass/bass_proxy.cpp`.
`protect_ok` is the outcome of the `VirtualProtect` call; the source
ignores that outcome, which is why the field is never consulted below. -/
structure InstallEnv where
  opengl_module : Bool
  target_resolved : Bool
  target_addr : Nat
  protect_ok : Bool
  tramp_addr : Nat
  hook_addr : Nat

/-- `install_hook` of `src/src/bass/bass_proxy.cpp`: after the two
resolution checks there is no further branching — `VirtualProtect`'s
return value is discarded and the byte copies proceed regardless, and the
`VirtualAlloc` result is not null-checked before being written through. -/
def install_hook (e : InstallEnv) (s : St) : Bool × St × List Ev :=
  if e.opengl_module = false then (false, s, []) else
  if e.target_resolved = false then (false, s, []) else
  let A := e.target_addr
  let saved := readBytes s.mem A 5
  let s1 : St := { s with original_bytes := saved,
                          mem := writeBytes s.mem A (patchBytes e.hook_addr A) }
  let T := e.tramp_addr
  let s2 : St := { s1 with
    mem := writeBytes (writeBytes s1.mem T (List.replicate 16 0)) T
             (trampBytes saved A T),
    real_wgl_swap := some T }
  (true, s2,
   [Ev.protect, Ev.writeTarget, Ev.protectRestore, Ev.allocTramp, Ev.writeTramp])

end Bass

/-! Helper lemmas about the byte-level primitives. -/

lemma writeBytes_at (m : Mem) (a : Nat) (bs : List Nat) (x : Nat)
    (hx1 : a ≤ x) (hx2 : x < a + bs.length) :
    writeBytes m a bs x = bs.getD (x - a) 0 := by
  unfold writeBytes
  rw [if_pos ⟨hx1, hx2⟩]

lemma writeBytes_out (m : Mem) (a : Nat) (bs : List Nat) (x : Nat)
    (hx : x < a ∨ a + bs.length ≤ x) :
    writeBytes m a bs x = m x := by
  unfold writeBytes
  rw [if_neg (by omega)]

lemma readBytes_length (m : Mem) (a n : Nat) : (readBytes m a n).length = n := by
  simp [readBytes]

lemma readBytes_getD (m : Mem) (a n i : Nat) (h : i < n) :
    (readBytes m a n).getD i 0 = m (a + i) := by
  unfold readBytes
  rw [List.getD_eq_getElem?_getD, List.getElem?_map, List.getElem?_range h]
  rfl

lemma relOffset_lt (dst src : Nat) : relOffset dst src < 4294967296 := by
  unfold relOffset
  have h1 : (0 : Int) ≤ ((dst : Int) - (src : Int)).emod 4294967296 :=
    Int.emod_nonneg _ (by norm_num)
  have h2 : ((dst : Int) - (src : Int)).emod 4294967296 < 4294967296 :=
    Int.emod_lt_of_pos _ (by norm_num)
  omega

lemma emod_two_pow_32 (d : Int) (h1 : -(2147483648 : Int) ≤ d)
    (h2 : d < 2147483648) :
    d.emod 4294967296 = if 0 ≤ d then d else d + 4294967296 := by
  split
  · exact Int.emod_eq_of_lt (by omega) (by omega)
  · have h3 : (d + 4294967296 * 1) % 4294967296 = d % 4294967296 :=
      Int.add_mul_emod_self_left d 4294967296 1
    rw [show d + 4294967296 * 1 = d + 4294967296 by ring] at h3
    rw [show d.emod 4294967296 = d % 4294967296 from rfl, ← h3]
    exact Int.emod_eq_of_lt (by omega) (by omega)

lemma sint32_relOffset (dst src : Nat)
    (hf1 : -(2147483648 : Int) ≤ (dst : Int) - (src : Int))
    (hf2 : (dst : Int) - (src : Int) < 2147483648) :
    sint32 (relOffset dst src) = (dst : Int) - (src : Int) := by
  unfold sint32 relOffset
  rw [emod_two_pow_32 _ hf1 hf2]
  by_cases hd : 0 ≤ (dst : Int) - (src : Int)
  · simp only [if_pos hd]
    rw [if_pos (by omega)]
    omega
  · simp only [if_neg hd]
    rw [if_neg (by omega)]
    omega

lemma decodeLE32_le32 (v : Nat) (h : v < 4294967296) :
    decodeLE32 (v % 256) (v / 256 % 256) (v / 65536 % 256) (v / 16777216 % 256)
      = v := by
  unfold decodeLE32
  omega

lemma patchBytes_length (hook target : Nat) :
    (patchBytes hook target).length = 5 := by
  simp [patchBytes, le32]

lemma trampBytes_length (saved : List Nat) (target tramp : Nat)
    (h : saved.length = 5) :
    (trampBytes saved target tramp).length = 10 := by
  simp [trampBytes, le32, h]

/-! Lemmas about the interceptor's control flow. -/

lemma finishSwap_ret (e : SwapEnv) (s : St) (tr : List Ev) :
    (finishSwap e s tr).1 = e.tramp_ret := rfl

lemma finishSwap_state (e : SwapEnv) (s : St) (tr : List Ev) :
    (finishSwap e s tr).2.1 = s := rfl

lemma finishSwap_count_tramp (e : SwapEnv) (s : St) (tr : List Ev) :
    (finishSwap e s tr).2.2.count Ev.callTramp = tr.count Ev.callTramp + 1 := by
  unfold finishSwap
  split <;> simp [List.count_append, List.count_cons, List.count_nil, beq_iff_eq]

lemma finishSwap_count_subst (e : SwapEnv) (s : St) (tr : List Ev) :
    (finishSwap e s tr).2.2.count Ev.wndSubst = tr.count Ev.wndSubst := by
  unfold finishSwap
  split <;> simp [List.count_append, List.count_cons, List.count_nil, beq_iff_eq]

lemma hook_swap_rest_ret (e : SwapEnv) (s : St) (tr : List Ev) :
    (hook_swap_rest e s tr).1 = e.tramp_ret := by
  unfold hook_swap_rest
  split
  · split
    · exact finishSwap_ret ..
    · split
      · exact finishSwap_ret ..
      · split <;> exact finishSwap_ret ..
  · exact finishSwap_ret ..

lemma hook_swap_rest_count_tramp (e : SwapEnv) (s : St) (tr : List Ev) :
    (hook_swap_rest e s tr).2.2.count Ev.callTramp
      = tr.count Ev.callTramp + 1 := by
  unfold hook_swap_rest
  split
  · split
    · rw [finishSwap_count_tramp]; simp [List.count_append, List.count_cons, List.count_nil, beq_iff_eq]
    · split
      · rw [finishSwap_count_tramp]; simp [List.count_append, List.count_cons, List.count_nil, beq_iff_eq]
      · split <;> (rw [finishSwap_count_tramp]; simp [List.count_append, List.count_cons, List.count_nil, beq_iff_eq])
  · exact finishSwap_count_tramp ..

lemma hook_swap_rest_count_subst (e : SwapEnv) (s : St) (tr : List Ev) :
    (hook_swap_rest e s tr).2.2.count Ev.wndSubst
      = tr.count Ev.wndSubst := by
  unfold hook_swap_rest
  split
  · split
    · rw [finishSwap_count_subst]; simp [List.count_append, List.count_cons, List.count_nil, beq_iff_eq]
    · split
      · rw [finishSwap_count_subst]; simp [List.count_append, List.count_cons, List.count_nil, beq_iff_eq]
      · split <;> (rw [finishSwap_count_subst]; simp [List.count_append, List.count_cons, List.count_nil, beq_iff_eq])
  · exact finishSwap_count_subst ..

lemma hook_swap_rest_preserves (e : SwapEnv) (s : St) (tr : List Ev) :
    (hook_swap_rest e s tr).2.1.swap_init = s.swap_init ∧
    (hook_swap_rest e s tr).2.1.orig_wnd_proc = s.orig_wnd_proc := by
  unfold hook_swap_rest
  split
  · split
    · rw [finishSwap_state]; exact ⟨rfl, rfl⟩
    · split
      · rw [finishSwap_state]; exact ⟨rfl, rfl⟩
      · split <;> (rw [finishSwap_state]; exact ⟨rfl, rfl⟩)
  · rw [finishSwap_state]; exact ⟨rfl, rfl⟩

/-! Concrete inputs used for counterexamples and witnesses. -/

/-- A concrete starting state: all five target bytes read `0x55`, no hook
installed, no window hooked, flags clear. -/
def s0 : St :=
  { mem := fun _ => 0x55, original_bytes := [], real_wgl_swap := none,
    game_window := none, orig_wnd_proc := none, swap_init := false,
    imgui_ready := false, shutting_down := false, g_hooks := [] }

/-- The state of a fully initialized overlay while teardown is in
progress: lazy setup done, GUI up, shutting-down flag set. -/
def s_shutdown : St :=
  { s0 with swap_init := true, imgui_ready := true, shutting_down := true,
            game_window := some 11, orig_wnd_proc := some 12,
            real_wgl_swap := some 200 }

/-- A benign per-call environment for the interceptor. -/
def e_swap : SwapEnv :=
  { has_context := true, window_from_dc := some 11, set_wnd_long := some 12,
    imgui_win32_ok := true, imgui_gl3_ok := true, register_addr := some 100,
    hook_addr := 300, tramp_ret := true }

/-- Claim C3: every invocation of the interceptor — whatever the state of
the lazy-initialization flags, the GUI, or the shutting-down flag, and
whatever the per-call environment — forwards through the trampoline
exactly once and returns the trampoline's return value to the host. -/
theorem hook_swap_forwards_exactly_once (e : SwapEnv) (s : St) :
    (hook_swap e s).1 = e.tramp_ret ∧
    (hook_swap e s).2.2.count Ev.callTramp = 1 := by
  unfold hook_swap
  split
  · split
    · exact ⟨rfl, rfl⟩
    · refine ⟨hook_swap_rest_ret .., ?_⟩
      rw [hook_swap_rest_count_tramp]
      decide
  · refine ⟨hook_swap_rest_ret .., ?_⟩
    rw [hook_swap_rest_count_tramp]
    decide

/-- Claim C10: for every window message in every state — including during
shutdown — the substituted window procedure delegates to the saved
original window procedure exactly once, with the unmodified message
arguments, and returns its result; when shutting down only the overlay's
ImGui handler is skipped, so no host message is ever swallowed. -/
theorem wnd_proc_delegates_exactly_once (s : St) (r : Int) (h m w l : Nat) :
    (wnd_proc s r h m w l).1 = r ∧
    (wnd_proc s r h m w l).2.filter isCallOrig = [MsgEv.callOrig h m w l] ∧
    (s.shutting_down = true →
      (wnd_proc s r h m w l).2 = [MsgEv.callOrig h m w l]) ∧
    (s.shutting_down = false →
      (wnd_proc s r h m w l).2
        = [MsgEv.gui h m w l, MsgEv.callOrig h m w l]) := by
  unfold wnd_proc
  cases hs : s.shutting_down <;>
    simp [hs, isCallOrig, List.filter]

/-- Witness for C10 at a concrete state and message. -/
theorem wnd_proc_delegates_exactly_once_witness :
    (wnd_proc s_shutdown 7 1 2 3 4).2 = [MsgEv.callOrig 1 2 3 4] :=
  (wnd_proc_delegates_exactly_once s_shutdown 7 1 2 3 4).2.2.1 rfl

/-- Claim C5: when the target module or the exported symbol cannot be
resolved, `install_hook` returns failure, the state (memory, hook
pointer, flags) is untouched, and the trace is empty — in particular the
protection-change/byte-patch primitive is never invoked. -/
theorem install_unresolved_is_noop (e : InstallEnv) (s : St)
    (h : e.opengl_module = false ∨ e.target_resolved = false) :
    install_hook e s = (false, s, []) := by
  unfold install_hook
  rcases h with h | h
  · rw [if_pos h]
  · by_cases h2 : e.opengl_module = false
    · rw [if_pos h2]
    · rw [if_neg h2, if_pos h]

/-- A concrete install environment whose module resolution fails. -/
def e_unresolved : InstallEnv :=
  { opengl_module := false, target_resolved := true, target_addr := 100,
    protect_ok := true, protect_restore_ok := true, alloc_ok := true,
    tramp_addr := 200, hook_addr := 300 }

/-- Witness for C5 at a concrete environment. -/
theorem install_unresolved_is_noop_witness :
    install_hook e_unresolved s0 = (false, s0, []) :=
  install_unresolved_is_noop e_unresolved s0 (Or.inl rfl)

/-- Claim C6: in every `remove_hooks` run, the shutting-down flag is set
strictly before the original bytes are copied back: any position of the
byte-restore in the trace is preceded by a position of the flag-set. -/
theorem remove_sets_flag_before_restore (e : RemoveEnv) (s : St) (i : Nat)
    (h : ((remove_hooks e s).2)[i]? = some Ev.restoreBytes) :
    ∃ j, j < i ∧ ((remove_hooks e s).2)[j]? = some Ev.setShutdown := by
  have h0 : ((remove_hooks e s).2)[0]? = some Ev.setShutdown := by
    simp [remove_hooks]
  refine ⟨0, ?_, h0⟩
  rcases i with _ | i
  · rw [h0] at h
    exact absurd h (by decide)
  · omega

/-- A concrete removal environment in which every win32 call succeeds. -/
def e_remove : RemoveEnv :=
  { opengl_module := true, target_resolved := true, target_addr := 100,
    protect_ok := true, free_ok := true }

/-- Witness for C6: with everything resolved and no window procedure to
restore, the byte-restore sits at trace position 2, and the flag-set is
found strictly before it. -/
theorem remove_sets_flag_before_restore_witness :
    ∃ j, j < 2 ∧ ((remove_hooks e_remove s0).2)[j]? = some Ev.setShutdown :=
  remove_sets_flag_before_restore e_remove s0 2 (by decide)

/-- Claim C7 (refuted — the code lacks the check the spec describes): at
the concrete failing input — lazy init done, GUI up, shutting-down flag
already set — the interceptor still performs the per-frame overlay update
(`draw_overlay` appears in its trace); only the forward-once part holds.
`hook_swap` never reads `shutting_down`. -/
theorem hook_swap_ignores_shutdown_flag :
    s_shutdown.shutting_down = true ∧
    (hook_swap e_swap s_shutdown).2.2.count Ev.drawOverlay = 1 ∧
    (hook_swap e_swap s_shutdown).2.2.count Ev.callTramp = 1 := by
  decide

/-! One-call and whole-run lemmas for the lazy window-procedure hook. -/

lemma hook_swap_subst_step (e : SwapEnv) (s : St) :
    (hook_swap e s).2.2.count Ev.wndSubst
        + (if (hook_swap e s).2.1.swap_init then 0 else 1)
      ≤ (if s.swap_init then 0 else 1) ∧
    (s.swap_init = true →
      (hook_swap e s).2.1.orig_wnd_proc = s.orig_wnd_proc ∧
      (hook_swap e s).2.2.count Ev.wndSubst = 0) := by
  unfold hook_swap
  split
  · rename_i hcond
    have hinit : s.swap_init = false := by
      cases hs : s.swap_init
      · rfl
      · rw [hs] at hcond
        simp at hcond
    split
    · refine ⟨?_, fun htrue => absurd htrue (by simp [hinit])⟩
      simp [hinit]
    · rename_i w heq
      refine ⟨?_, fun htrue => absurd htrue (by simp [hinit])⟩
      rw [hook_swap_rest_count_subst, (hook_swap_rest_preserves ..).1]
      simp [hinit, List.count_cons, List.count_nil, beq_iff_eq]
  · refine ⟨?_, fun htrue => ?_⟩
    · rw [hook_swap_rest_count_subst, (hook_swap_rest_preserves ..).1]
      simp
    · rw [hook_swap_rest_count_subst, (hook_swap_rest_preserves ..).2]
      exact ⟨rfl, rfl⟩

lemma run_swaps_subst (es : List SwapEnv) (s : St) :
    (run_swaps es s).2.count Ev.wndSubst ≤ (if s.swap_init then 0 else 1) ∧
    (s.swap_init = true →
      (run_swaps es s).1.orig_wnd_proc = s.orig_wnd_proc ∧
      (run_swaps es s).2.count Ev.wndSubst = 0) := by
  induction es generalizing s with
  | nil =>
      refine ⟨by simp [run_swaps], fun _ => ⟨rfl, by simp [run_swaps]⟩⟩
  | cons e es ih =>
      have step := hook_swap_subst_step e s
      have ihs := ih (hook_swap e s).2.1
      unfold run_swaps
      rw [List.count_append]
      constructor
      · have h1 := step.1
        have h2 := ihs.1
        cases hpost : (hook_swap e s).2.1.swap_init
        · rw [hpost] at h1 h2
          omega
        · rw [hpost] at h1 h2
          omega
      · intro htrue
        obtain ⟨horig, hcnt⟩ := step.2 htrue
        have hpost : (hook_swap e s).2.1.swap_init = true := by
          have h1 := step.1
          rw [htrue] at h1
          cases hpost : (hook_swap e s).2.1.swap_init
          · rw [hpost] at h1
            simp at h1
          · rfl
        obtain ⟨horig2, hcnt2⟩ := ihs.2 hpost
        refine ⟨by rw [horig2, horig], by omega⟩

/-- Claim C9: across any sequence of interceptor invocations from any
starting state, the window-procedure substitution is performed at most
once; and once the lazy initialization has run (`swap_init` observed
true), no later invocation performs another substitution or overwrites
the saved original window-procedure pointer. -/
theorem wnd_subst_at_most_once (es : List SwapEnv) (s : St) :
    (run_swaps es s).2.count Ev.wndSubst ≤ 1 ∧
    (s.swap_init = true →
      (run_swaps es s).1.orig_wnd_proc = s.orig_wnd_proc ∧
      (run_swaps es s).2.count Ev.wndSubst = 0) := by
  have h := run_swaps_subst es s
  refine ⟨le_trans h.1 ?_, h.2⟩
  split <;> omega

/-- Witness for C9: two invocations from an already-initialized state
perform no substitution and keep the saved pointer intact. -/
theorem wnd_subst_at_most_once_witness :
    (run_swaps [e_swap, e_swap] s_shutdown).1.orig_wnd_proc
        = s_shutdown.orig_wnd_proc ∧
    (run_swaps [e_swap, e_swap] s_shutdown).2.count Ev.wndSubst = 0 :=
  (wnd_subst_at_most_once [e_swap, e_swap] s_shutdown).2 rfl

/-! Install/remove memory lemmas. -/

lemma install_hook_success_fields (e : InstallEnv) (s : St)
    (h1 : e.opengl_module = true) (h2 : e.target_resolved = true)
    (h3 : e.protect_ok = true) (h4 : e.alloc_ok = true) :
    (install_hook e s).1 = true ∧
    (install_hook e s).2.1.original_bytes = readBytes s.mem e.target_addr 5 ∧
    (install_hook e s).2.1.mem
      = writeBytes
          (writeBytes
            (writeBytes s.mem e.target_addr
              (patchBytes e.hook_addr e.target_addr))
            e.tramp_addr (List.replicate 16 0))
          e.tramp_addr
          (trampBytes (readBytes s.mem e.target_addr 5)
            e.target_addr e.tramp_addr) ∧
    (install_hook e s).2.1.real_wgl_swap = some e.tramp_addr := by
  unfold install_hook
  rw [h1, h2, h3, h4]
  simp

lemma remove_hooks_mem (e : RemoveEnv) (s : St)
    (h1 : e.opengl_module = true) (h2 : e.target_resolved = true)
    (h3 : e.protect_ok = true) :
    (remove_hooks e s).1.mem
      = writeBytes s.mem e.target_addr s.original_bytes := by
  unfold remove_hooks
  rw [h1, h2, h3]
  simp

/-- Claim C1: after a successful install (module and symbol resolved,
protection change and trampoline allocation succeeded) followed by a
removal whose own resolution and protection change succeed, the five
bytes at the target entry address are bit-identical to their pre-install
values; install captured exactly those five bytes before any write to the
target, and remove wrote them back verbatim. -/
theorem install_remove_restores_bytes (e : InstallEnv) (er : RemoveEnv)
    (s : St)
    (h1 : e.opengl_module = true) (h2 : e.target_resolved = true)
    (h3 : e.protect_ok = true) (h4 : e.alloc_ok = true)
    (h5 : er.opengl_module = true) (h6 : er.target_resolved = true)
    (h7 : er.protect_ok = true) (h8 : er.target_addr = e.target_addr) :
    (install_hook e s).1 = true ∧
    (install_hook e s).2.1.original_bytes
      = readBytes s.mem e.target_addr 5 ∧
    (∀ i, i < 5 →
      (remove_hooks er (install_hook e s).2.1).1.mem (e.target_addr + i)
        = s.mem (e.target_addr + i)) := by
  obtain ⟨hres, horig, hmem, hswap⟩ :=
    install_hook_success_fields e s h1 h2 h3 h4
  refine ⟨hres, horig, fun i hi => ?_⟩
  rw [remove_hooks_mem er _ h5 h6 h7, h8, horig]
  rw [writeBytes_at _ _ _ _ (by omega) (by rw [readBytes_length]; omega)]
  rw [show e.target_addr + i - e.target_addr = i by omega]
  exact readBytes_getD s.mem e.target_addr 5 i hi

/-- A concrete install environment in which every win32 call succeeds. -/
def e_install : InstallEnv :=
  { opengl_module := true, target_resolved := true, target_addr := 100,
    protect_ok := true, protect_restore_ok := true, alloc_ok := true,
    tramp_addr := 200, hook_addr := 300 }

/-- Witness for C1 at concrete environments: the first target byte is
back to its pre-install value after the install→remove cycle. -/
theorem install_remove_restores_bytes_witness :
    (remove_hooks e_remove (install_hook e_install s0).2.1).1.mem (100 + 0)
      = s0.mem (100 + 0) :=
  (install_remove_restores_bytes e_install e_remove s0
    rfl rfl rfl rfl rfl rfl rfl rfl).2.2 0 (by decide)

/-! Claim C4: trampoline-allocation failure. -/

lemma install_hook_alloc_fail_fields (e : InstallEnv) (s : St)
    (h1 : e.opengl_module = true) (h2 : e.target_resolved = true)
    (h3 : e.protect_ok = true) (h4 : e.alloc_ok = false) :
    (install_hook e s).1 = false ∧
    (install_hook e s).2.1.real_wgl_swap = s.real_wgl_swap ∧
    (install_hook e s).2.1.mem
      = writeBytes s.mem e.target_addr
          (patchBytes e.hook_addr e.target_addr) := by
  unfold install_hook
  rw [h1, h2, h3, h4]
  simp

/-- A concrete install environment whose trampoline allocation fails,
everything before it succeeding. -/
def e_alloc_fail : InstallEnv :=
  { opengl_module := true, target_resolved := true, target_addr := 100,
    protect_ok := true, protect_restore_ok := true, alloc_ok := false,
    tramp_addr := 200, hook_addr := 300 }

/-- Claim C4 counterexample: when trampoline allocation fails, install
does abort (returns false), but the target byte at the entry address has
already been changed from its original `0x55` to the jump opcode `0xE9` —
the bytes are NOT left unmodified as the claim states. -/
theorem install_alloc_fail_leaves_patch :
    (install_hook e_alloc_fail s0).1 = false ∧
    s0.mem 100 = 0x55 ∧
    (install_hook e_alloc_fail s0).2.1.mem 100 = 0xE9 := by
  decide

/-- Claim C4 as amended: when trampoline allocation fails, install
aborts (returns failure) and never publishes a callable trampoline, but
the target has already been patched — the 5-byte jump is written before
`VirtualAlloc` is attempted, so the five bytes at the entry address hold
the patch, not their original values (the committed-patch risk §4.3 of
the spec documents). -/
theorem install_alloc_fail_aborts_after_patch (e : InstallEnv) (s : St)
    (h1 : e.opengl_module = true) (h2 : e.target_resolved = true)
    (h3 : e.protect_ok = true) (h4 : e.alloc_ok = false) :
    (install_hook e s).1 = false ∧
    (install_hook e s).2.1.real_wgl_swap = s.real_wgl_swap ∧
    (∀ i, i < 5 →
      (install_hook e s).2.1.mem (e.target_addr + i)
        = (patchBytes e.hook_addr e.target_addr).getD i 0) := by
  obtain ⟨hres, hswap, hmem⟩ := install_hook_alloc_fail_fields e s h1 h2 h3 h4
  refine ⟨hres, hswap, fun i hi => ?_⟩
  rw [hmem]
  rw [writeBytes_at _ _ _ _ (by omega) (by rw [patchBytes_length]; omega)]
  rw [show e.target_addr + i - e.target_addr = i by omega]

/-- Witness for the amended C4 at a concrete environment: install fails
and the first target byte holds the jump opcode. -/
theorem install_alloc_fail_aborts_after_patch_witness :
    (install_hook e_alloc_fail s0).1 = false ∧
    (install_hook e_alloc_fail s0).2.1.mem (100 + 0)
      = (patchBytes 300 100).getD 0 0 :=
  ⟨(install_alloc_fail_aborts_after_patch e_alloc_fail s0 rfl rfl rfl rfl).1,
   (install_alloc_fail_aborts_after_patch e_alloc_fail s0 rfl rfl rfl rfl).2.2
     0 (by decide)⟩

/-! Claim C8: protection-change failure. -/

/-- A concrete bass-variant install environment whose protection change
fails. -/
def e_bass_protect_fail : Bass.InstallEnv :=
  { opengl_module := true, target_resolved := true, target_addr := 100,
    protect_ok := false, tramp_addr := 200, hook_addr := 300 }

/-- Claim C8 counterexample (bass variant): `install_hook` of
`src/src/bass/bass_proxy.cpp` discards the `VirtualProtect` result, so
with the protection change failing it still performs the byte copy into
the target — the patch byte `0xE9` replaces the original `0x55`. -/
theorem bass_install_copies_despite_protect_fail :
    e_bass_protect_fail.protect_ok = false ∧
    (Bass.install_hook e_bass_protect_fail s0).2.2.count Ev.writeTarget = 1 ∧
    (Bass.install_hook e_bass_protect_fail s0).2.1.mem 100 = 0xE9 ∧
    s0.mem 100 = 0x55 := by
  decide

/-- Claim C8 as amended: in the overlay variant
(`src/src/overlay/bass_proxy.cpp`) a failed protection change does abort
the operation with no byte copy — install returns failure having touched
nothing, and remove skips the byte restore, leaving memory unchanged.
The bass variant ignores the protection result and copies anyway (see the
counterexample). -/
theorem overlay_protect_fail_no_copy (e : InstallEnv) (er : RemoveEnv)
    (s : St)
    (h1 : e.opengl_module = true) (h2 : e.target_resolved = true)
    (h3 : e.protect_ok = false)
    (h4 : er.opengl_module = true) (h5 : er.target_resolved = true)
    (h6 : er.protect_ok = false) :
    install_hook e s = (false, s, [Ev.protect]) ∧
    (remove_hooks er s).1.mem = s.mem ∧
    (remove_hooks er s).2.count Ev.restoreBytes = 0 := by
  refine ⟨?_, ?_, ?_⟩
  · unfold install_hook
    rw [h1, h2, h3]
    simp
  · unfold remove_hooks
    rw [h4, h5, h6]
    simp
  · unfold remove_hooks
    rw [h4, h5, h6]
    simp only [Bool.and_true, Bool.and_false, Bool.true_and,
      List.count_cons, List.count_append]
    repeat' split
    all_goals simp_all [List.count_cons, List.count_nil, beq_iff_eq,
      beq_eq_false_iff_ne]

/-- Witness for the amended C8 at concrete environments. -/
theorem overlay_protect_fail_no_copy_witness :
    install_hook { e_install with protect_ok := false } s0
        = (false, s0, [Ev.protect]) ∧
    (remove_hooks { e_remove with protect_ok := false } s0).1.mem
        = s0.mem :=
  ⟨(overlay_protect_fail_no_copy { e_install with protect_ok := false }
      { e_remove with protect_ok := false } s0 rfl rfl rfl rfl rfl rfl).1,
   (overlay_protect_fail_no_copy { e_install with protect_ok := false }
      { e_remove with protect_ok := false } s0 rfl rfl rfl rfl rfl rfl).2.1⟩

/-! Claim C2: the jump encodings written by install. -/

lemma readBytes_five (m : Mem) (a : Nat) :
    readBytes m a 5 = [m a, m (a + 1), m (a + 2), m (a + 3), m (a + 4)] := by
  simp [readBytes, List.range_succ]

lemma install_mem_patch (e : InstallEnv) (s : St)
    (h1 : e.opengl_module = true) (h2 : e.target_resolved = true)
    (h3 : e.protect_ok = true) (h4 : e.alloc_ok = true)
    (hd : e.target_addr + 5 ≤ e.tramp_addr ∨
          e.tramp_addr + 16 ≤ e.target_addr)
    (k : Nat) (hk : k < 5) :
    (install_hook e s).2.1.mem (e.target_addr + k)
      = (patchBytes e.hook_addr e.target_addr).getD k 0 := by
  obtain ⟨_, _, hmem, _⟩ := install_hook_success_fields e s h1 h2 h3 h4
  have hlen : (trampBytes (readBytes s.mem e.target_addr 5)
      e.target_addr e.tramp_addr).length = 10 :=
    trampBytes_length _ _ _ (readBytes_length s.mem e.target_addr 5)
  rw [hmem]
  rw [writeBytes_out _ _ _ _ (by rw [hlen]; omega)]
  rw [writeBytes_out _ _ _ _ (by rw [List.length_replicate]; omega)]
  rw [writeBytes_at _ _ _ _ (by omega) (by rw [patchBytes_length]; omega)]
  rw [show e.target_addr + k - e.target_addr = k by omega]

lemma install_mem_tramp (e : InstallEnv) (s : St)
    (h1 : e.opengl_module = true) (h2 : e.target_resolved = true)
    (h3 : e.protect_ok = true) (h4 : e.alloc_ok = true)
    (k : Nat) (hk : k < 10) :
    (install_hook e s).2.1.mem (e.tramp_addr + k)
      = (trampBytes (readBytes s.mem e.target_addr 5)
          e.target_addr e.tramp_addr).getD k 0 := by
  obtain ⟨_, _, hmem, _⟩ := install_hook_success_fields e s h1 h2 h3 h4
  have hlen : (trampBytes (readBytes s.mem e.target_addr 5)
      e.target_addr e.tramp_addr).length = 10 :=
    trampBytes_length _ _ _ (readBytes_length s.mem e.target_addr 5)
  rw [hmem]
  rw [writeBytes_at _ _ _ _ (by omega) (by rw [hlen]; omega)]
  rw [show e.tramp_addr + k - e.tramp_addr = k by omega]

/-- Claim C2: on a successful install with target entry `A`, interceptor
`I` and trampoline base `T` (the trampoline block disjoint from the patch
site, displacements representable in 32 bits), the five bytes written at
`A` are `0xE9` followed by a little-endian signed 32-bit displacement `d`
with `d + (A + 5) = I`; and the trampoline holds the five saved original
bytes, then `0xE9`, then a little-endian signed 32-bit displacement `b`
with `b + (T + 10) = A + 5`. -/
theorem install_writes_correct_encodings (e : InstallEnv) (s : St)
    (h1 : e.opengl_module = true) (h2 : e.target_resolved = true)
    (h3 : e.protect_ok = true) (h4 : e.alloc_ok = true)
    (hd : e.target_addr + 5 ≤ e.tramp_addr ∨
          e.tramp_addr + 16 ≤ e.target_addr)
    (hf1 : -(2147483648 : Int) ≤ (e.hook_addr : Int) - ((e.target_addr : Int) + 5))
    (hf2 : (e.hook_addr : Int) - ((e.target_addr : Int) + 5) < 2147483648)
    (hb1 : -(2147483648 : Int) ≤ ((e.target_addr : Int) + 5) - ((e.tramp_addr : Int) + 10))
    (hb2 : ((e.target_addr : Int) + 5) - ((e.tramp_addr : Int) + 10) < 2147483648) :
    (install_hook e s).1 = true ∧
    (install_hook e s).2.1.mem e.target_addr = 0xE9 ∧
    sint32 (decodeLE32
        ((install_hook e s).2.1.mem (e.target_addr + 1))
        ((install_hook e s).2.1.mem (e.target_addr + 2))
        ((install_hook e s).2.1.mem (e.target_addr + 3))
        ((install_hook e s).2.1.mem (e.target_addr + 4)))
      + ((e.target_addr : Int) + 5) = (e.hook_addr : Int) ∧
    (∀ i, i < 5 →
      (install_hook e s).2.1.mem (e.tramp_addr + i)
        = s.mem (e.target_addr + i)) ∧
    (install_hook e s).2.1.mem (e.tramp_addr + 5) = 0xE9 ∧
    sint32 (decodeLE32
        ((install_hook e s).2.1.mem (e.tramp_addr + 6))
        ((install_hook e s).2.1.mem (e.tramp_addr + 7))
        ((install_hook e s).2.1.mem (e.tramp_addr + 8))
        ((install_hook e s).2.1.mem (e.tramp_addr + 9)))
      + ((e.tramp_addr : Int) + 10) = (e.target_addr : Int) + 5 := by
  have hres := (install_hook_success_fields e s h1 h2 h3 h4).1
  have hcastA : ((e.target_addr + 5 : Nat) : Int) = (e.target_addr : Int) + 5 := by
    push_cast
    ring
  have hcastT : ((e.tramp_addr + 10 : Nat) : Int) = (e.tramp_addr : Int) + 10 := by
    push_cast
    ring
  refine ⟨hres, ?_, ?_, ?_, ?_, ?_⟩
  · have h := install_mem_patch e s h1 h2 h3 h4 hd 0 (by omega)
    rw [show e.target_addr + 0 = e.target_addr by omega] at h
    rw [h]
    rfl
  · rw [install_mem_patch e s h1 h2 h3 h4 hd 1 (by omega),
        install_mem_patch e s h1 h2 h3 h4 hd 2 (by omega),
        install_mem_patch e s h1 h2 h3 h4 hd 3 (by omega),
        install_mem_patch e s h1 h2 h3 h4 hd 4 (by omega)]
    rw [show (patchBytes e.hook_addr e.target_addr).getD 1 0
          = relOffset e.hook_addr (e.target_addr + 5) % 256 from rfl,
        show (patchBytes e.hook_addr e.target_addr).getD 2 0
          = relOffset e.hook_addr (e.target_addr + 5) / 256 % 256 from rfl,
        show (patchBytes e.hook_addr e.target_addr).getD 3 0
          = relOffset e.hook_addr (e.target_addr + 5) / 65536 % 256 from rfl,
        show (patchBytes e.hook_addr e.target_addr).getD 4 0
          = relOffset e.hook_addr (e.target_addr + 5) / 16777216 % 256 from rfl]
    rw [decodeLE32_le32 _ (relOffset_lt _ _)]
    rw [sint32_relOffset _ _ (by rw [hcastA]; exact hf1) (by rw [hcastA]; exact hf2)]
    rw [hcastA]
    ring
  · intro i hi
    rw [install_mem_tramp e s h1 h2 h3 h4 i (by omega)]
    rw [show trampBytes (readBytes s.mem e.target_addr 5)
          e.target_addr e.tramp_addr
        = readBytes s.mem e.target_addr 5
            ++ 0xE9 :: le32 (relOffset (e.target_addr + 5)
                (e.tramp_addr + 10)) from rfl]
    rw [List.getD_append _ _ _ _ (by rw [readBytes_length]; omega)]
    exact readBytes_getD s.mem e.target_addr 5 i hi
  · rw [install_mem_tramp e s h1 h2 h3 h4 5 (by omega)]
    rw [readBytes_five]
    rfl
  · rw [install_mem_tramp e s h1 h2 h3 h4 6 (by omega),
        install_mem_tramp e s h1 h2 h3 h4 7 (by omega),
        install_mem_tramp e s h1 h2 h3 h4 8 (by omega),
        install_mem_tramp e s h1 h2 h3 h4 9 (by omega),
        readBytes_five]
    rw [show (trampBytes [s.mem e.target_addr, s.mem (e.target_addr + 1),
          s.mem (e.target_addr + 2), s.mem (e.target_addr + 3),
          s.mem (e.target_addr + 4)] e.target_addr e.tramp_addr).getD 6 0
          = relOffset (e.target_addr + 5) (e.tramp_addr + 10) % 256 from rfl]
    rw [show (trampBytes [s.mem e.target_addr, s.mem (e.target_addr + 1),
          s.mem (e.target_addr + 2), s.mem (e.target_addr + 3),
          s.mem (e.target_addr + 4)] e.target_addr e.tramp_addr).getD 7 0
          = relOffset (e.target_addr + 5) (e.tramp_addr + 10) / 256 % 256 from rfl]
    rw [show (trampBytes [s.mem e.target_addr, s.mem (e.target_addr + 1),
          s.mem (e.target_addr + 2), s.mem (e.target_addr + 3),
          s.mem (e.target_addr + 4)] e.target_addr e.tramp_addr).getD 8 0
          = relOffset (e.target_addr + 5) (e.tramp_addr + 10) / 65536 % 256 from rfl]
    rw [show (trampBytes [s.mem e.target_addr, s.mem (e.target_addr + 1),
          s.mem (e.target_addr + 2), s.mem (e.target_addr + 3),
          s.mem (e.target_addr + 4)] e.target_addr e.tramp_addr).getD 9 0
          = relOffset (e.target_addr + 5) (e.tramp_addr + 10) / 16777216 % 256 from rfl]
    rw [decodeLE32_le32 _ (relOffset_lt _ _)]
    rw [sint32_relOffset _ _
      (by rw [hcastA, hcastT]; exact hb1) (by rw [hcastA, hcastT]; exact hb2)]
    rw [hcastA, hcastT]
    ring

/-- Witness for C2 at concrete addresses (`A = 100`, `I = 300`,
`T = 200`): the forward and back displacements decode to the interceptor
and the resume point. -/
theorem install_writes_correct_encodings_witness :
    (install_hook e_install s0).1 = true ∧
    sint32 (decodeLE32
        ((install_hook e_install s0).2.1.mem (100 + 1))
        ((install_hook e_install s0).2.1.mem (100 + 2))
        ((install_hook e_install s0).2.1.mem (100 + 3))
        ((install_hook e_install s0).2.1.mem (100 + 4)))
      + ((100 : Int) + 5) = (300 : Int) :=
  ⟨(install_writes_correct_encodings e_install s0 rfl rfl rfl rfl
      (by decide) (by decide) (by decide) (by decide) (by decide)).1,
   (install_writes_correct_encodings e_install s0 rfl rfl rfl rfl
      (by decide) (by decide) (by decide) (by decide) (by decide)).2.2.1⟩
